import Mathlib

/-
Verification of the product-configuration lifecycle of the Google services
manager: the three operations of ServiceManager in services/service_mgmt.py
(enable_apis, disable_apis, get_status) against a document store
(Cosmos DB container), shallowly embedded.

Modelling choices:
- A JSON-ish scalar value type JValue stands for the opaque values stored in
  per-service settings dictionaries; a settings dictionary is an association
  list with Python dict.get semantics (dictGet).
- A stored document is the ProductConfig structure, mirroring exactly the
  dictionary built by enable_apis (keys: id, productCode, productName,
  apis.enabled, per-service settings present only when the service was
  listed, updatedAt).
- The container is a list of documents; read_item finds by (id, partition
  key), upsert_item replaces the document with the same (id, partition key)
  or creates it.
- The clock (datetime.utcnow().isoformat()) is an explicit String argument.
- A manager whose Cosmos initialisation failed has container = none; each
  operation raises the fixed message the source raises.
- Exceptions are Except.error; enable_apis and disable_apis return the pair
  of the container state after the call and the result or error, so that the
  no-write-on-failure paths are visible in the model.
-/

/-- Python str.lower(), character by character over the string content.
(String.toLower of the library is the same map but is defined by
well-founded recursion over byte positions, which blocks kernel
evaluation; the claims only involve ASCII product codes, on which
Char.toLower agrees with Python.) -/
def strLower (s : String) : String := String.mk (s.data.map Char.toLower)

inductive JValue where
  | jbool : Bool → JValue
  | jstr : String → JValue
deriving DecidableEq

/-- A Python settings dictionary: keys to opaque scalar values. -/
abbrev Settings := List (String × JValue)

/-- Python dict.get with a default value. -/
def dictGet (s : Settings) (key : String) (dflt : JValue) : JValue :=
  match s.lookup key with
  | some v => v
  | none => dflt

/-- The document enable_apis writes: id, productCode, productName, the
apis.enabled list, one optional settings sub-object per known service
(present exactly when attached), and updatedAt. -/
structure ProductConfig where
  id : String
  productCode : String
  productName : String
  apisEnabled : List String
  analytics : Option Settings
  tags : Option Settings
  adsense : Option Settings
  ads : Option Settings
  updatedAt : String
deriving DecidableEq

/-- The Cosmos container content: the set of stored documents. -/
abbrev Store := List ProductConfig

/-- Document identity in the container: same id and same partition key. -/
def matchKey (id pk : String) (d : ProductConfig) : Bool :=
  d.id == id && d.productCode == pk

/-- container.read_item(id, partition_key=pk): the stored document with this
id and partition key, or none (read failure / not found). -/
def readItem (store : Store) (id pk : String) : Option ProductConfig :=
  store.find? (matchKey id pk)

/-- container.upsert_item(doc): replace the document with the same id and
partition key, or create it. -/
def upsertItem (store : Store) (doc : ProductConfig) : Store :=
  doc :: store.filter (fun d => !(matchKey doc.id doc.productCode d))

/-- The config argument of enable_apis: a dictionary that may carry a
productName and one settings sub-object per known service. -/
structure EnableConfig where
  productName : Option String
  analytics : Option Settings
  tags : Option Settings
  adsense : Option Settings
  ads : Option Settings
deriving DecidableEq

/-- The dictionary enable_apis returns on success. -/
structure EnableResult where
  success : Bool
  productCode : String
  enabledServices : List String
  configId : String
deriving DecidableEq

/-- The dictionary disable_apis returns on success. -/
structure DisableResult where
  success : Bool
  productCode : String
  disabledServices : List String
  remainingServices : List String
deriving DecidableEq

/-- The dictionary get_status returns; productName and updatedAt are
Options because the default status carries neither key. -/
structure Status where
  productCode : String
  productName : Option String
  enabledServices : List String
  analytics : JValue
  tags : JValue
  adsense : JValue
  ads : JValue
  updatedAt : Option String
deriving DecidableEq

/-- The product_config dictionary built by enable_apis (lines 58-78 of
service_mgmt.py): id = lowercased code + suffix, productName defaults to the
product code, apis.enabled = services, and for each known service listed in
services the settings sub-object config.get(name, empty dict). -/
def enable_doc (product_code : String) (services : List String)
    (config : EnableConfig) (now : String) : ProductConfig :=
  { id := strLower product_code ++ "-google-config"
    productCode := product_code
    productName := config.productName.getD product_code
    apisEnabled := services
    analytics := if services.contains "analytics" then some (config.analytics.getD []) else none
    tags := if services.contains "tags" then some (config.tags.getD []) else none
    adsense := if services.contains "adsense" then some (config.adsense.getD []) else none
    ads := if services.contains "ads" then some (config.ads.getD []) else none
    updatedAt := now }

/-- ServiceManager.enable_apis: raise if the container is absent, build the
replacement document from the arguments alone, upsert it, and return the
success dictionary. The first component is the container content after the
call. -/
def enable_apis (container : Option Store) (product_code : String)
    (services : List String) (config : EnableConfig) (now : String) :
    Option Store × Except String EnableResult :=
  match container with
  | none => (none, Except.error "Cosmos DB not initialized")
  | some store =>
      let config_id := strLower product_code ++ "-google-config"
      let product_config := enable_doc product_code services config now
      (some (upsertItem store product_config),
       Except.ok { success := true, productCode := product_code,
                   enabledServices := services, configId := config_id })

/-- ServiceManager.disable_apis: raise if the container is absent, read the
existing document (raising on failure, with the container untouched), filter
the services out of apis.enabled, set updatedAt, upsert, and return the
success dictionary. -/
def disable_apis (container : Option Store) (product_code : String)
    (services : List String) (now : String) :
    Option Store × Except String DisableResult :=
  match container with
  | none => (none, Except.error "Cosmos DB not initialized")
  | some store =>
      let config_id := strLower product_code ++ "-google-config"
      match readItem store config_id product_code with
      | none => (some store, Except.error "read failed: document not found")
      | some config =>
          let enabled := config.apisEnabled.filter (fun s => !(services.contains s))
          let config1 := { config with apisEnabled := enabled, updatedAt := now }
          (some (upsertItem store config1),
           Except.ok { success := true, productCode := product_code,
                       disabledServices := services, remainingServices := enabled })

/-- config.get(name, empty dict).get("enabled", False), the per-service
value get_status reports. -/
def serviceEnabled (s : Option Settings) : JValue :=
  dictGet (s.getD []) "enabled" (JValue.jbool false)

/-- The status dictionary get_status builds from a document it found. -/
def get_status_found (product_code : String) (config : ProductConfig) : Status :=
  { productCode := product_code
    productName := some config.productName
    enabledServices := config.apisEnabled
    analytics := serviceEnabled config.analytics
    tags := serviceEnabled config.tags
    adsense := serviceEnabled config.adsense
    ads := serviceEnabled config.ads
    updatedAt := some config.updatedAt }

/-- The default status get_status returns when the read raises: empty
enabledServices, all four service values False, no productName, no
updatedAt. -/
def default_status (product_code : String) : Status :=
  { productCode := product_code
    productName := none
    enabledServices := []
    analytics := JValue.jbool false
    tags := JValue.jbool false
    adsense := JValue.jbool false
    ads := JValue.jbool false
    updatedAt := none }

/-- The outcome of the read_item call inside the inner try of get_status:
either the document, or any raised exception (not-found included). -/
inductive ReadOutcome where
  | success : ProductConfig → ReadOutcome
  | failure : String → ReadOutcome

/-- The inner try/except of get_status: project a found document, and turn
any read failure whatsoever into the default status. -/
def get_status_inner (product_code : String) (outcome : ReadOutcome) : Status :=
  match outcome with
  | ReadOutcome.success config => get_status_found product_code config
  | ReadOutcome.failure _ => default_status product_code

/-- ServiceManager.get_status: raise if the container is absent (this check
sits outside the inner try, so it is not converted to a default status),
then read and project, defaulting on read failure. -/
def get_status (container : Option Store) (product_code : String) :
    Except String Status :=
  match container with
  | none => Except.error "Cosmos DB not initialized"
  | some store =>
      let config_id := strLower product_code ++ "-google-config"
      match readItem store config_id product_code with
      | some config => Except.ok (get_status_inner product_code (ReadOutcome.success config))
      | none => Except.ok (get_status_inner product_code (ReadOutcome.failure "not found"))

/-- The fixed service-name vocabulary of the spec. -/
def knownServices : List String := ["analytics", "tags", "adsense", "ads"]

/-- The service names of a document that carry a settings sub-object. -/
def settingsKeys (d : ProductConfig) : List String :=
  (if d.analytics.isSome then ["analytics"] else [])
    ++ (if d.tags.isSome then ["tags"] else [])
    ++ (if d.adsense.isSome then ["adsense"] else [])
    ++ (if d.ads.isSome then ["ads"] else [])

/-
Shared helper lemmas about the store operations.
-/

/-- Upserting a document and reading it back by its own key yields exactly
that document. -/
theorem readItem_upsert_self (store : Store) (doc : ProductConfig) :
    readItem (upsertItem store doc) doc.id doc.productCode = some doc := by
  simp [readItem, upsertItem, matchKey]

/-- Reading the status right after an enable call projects the document that
the enable call wrote. -/
theorem get_status_after_enable (store : Store) (pc : String) (services : List String)
    (cfg : EnableConfig) (now : String) :
    get_status (enable_apis (some store) pc services cfg now).1 pc
      = Except.ok (get_status_found pc (enable_doc pc services cfg now)) := by
  have h : readItem (upsertItem store (enable_doc pc services cfg now))
      (strLower pc ++ "-google-config") pc = some (enable_doc pc services cfg now) :=
    readItem_upsert_self store (enable_doc pc services cfg now)
  simp only [enable_apis, get_status, h]
  rfl

/-- A disable call right after an enable call for the same product code finds
the document the enable call wrote and succeeds. -/
theorem disable_after_enable (store : Store) (pc : String) (services services2 : List String)
    (cfg : EnableConfig) (t1 t2 : String) :
    (disable_apis (enable_apis (some store) pc services cfg t1).1 pc services2 t2).2
      = Except.ok { success := true, productCode := pc, disabledServices := services2,
                    remainingServices := services.filter (fun s => !(services2.contains s)) } := by
  have h : readItem (upsertItem store (enable_doc pc services cfg t1))
      (strLower pc ++ "-google-config") pc = some (enable_doc pc services cfg t1) :=
    readItem_upsert_self store (enable_doc pc services cfg t1)
  simp only [enable_apis, disable_apis, h]
  rfl

/-- What disable_apis does when the read finds a document: it upserts the
document with the filtered apis.enabled list and the new updatedAt, leaving
every other field alone, and reports the filtered list as
remainingServices. -/
theorem disable_found (store : Store) (pc : String) (services : List String) (now : String)
    (config : ProductConfig)
    (h : readItem store (strLower pc ++ "-google-config") pc = some config) :
    disable_apis (some store) pc services now
      = (some (upsertItem store { config with
            apisEnabled := config.apisEnabled.filter (fun s => !(services.contains s)),
            updatedAt := now }),
         Except.ok { success := true, productCode := pc, disabledServices := services,
                     remainingServices := config.apisEnabled.filter (fun s => !(services.contains s)) }) := by
  simp only [disable_apis, h]

/-
Concrete fixtures used by the counterexamples and witnesses.
-/

/-- The config argument of the end-to-end scenario of the spec:
analytics carries propertyId G-1, ads carries customerId 123, and neither
settings dictionary has an enabled key. -/
def gridCfg : EnableConfig :=
  { productName := none
    analytics := some [("propertyId", JValue.jstr "G-1")]
    tags := none
    adsense := none
    ads := some [("customerId", JValue.jstr "123")] }

/-- A config argument with nothing in it. -/
def emptyCfg : EnableConfig :=
  { productName := none, analytics := none, tags := none, adsense := none, ads := none }

/-- A stored document for product P with analytics and tags enabled, each
with a settings sub-object. -/
def doc0 : ProductConfig :=
  { id := "p-google-config"
    productCode := "P"
    productName := "Product P"
    apisEnabled := ["analytics", "tags"]
    analytics := some [("propertyId", JValue.jstr "G-1")]
    tags := some [("containerId", JValue.jstr "GTM-7")]
    adsense := none
    ads := none
    updatedAt := "t0" }

/-- The status actually returned for the GRID scenario of the spec. -/
def c1Status : Status :=
  { productCode := "GRID"
    productName := some "GRID"
    enabledServices := ["analytics", "ads"]
    analytics := JValue.jbool false
    tags := JValue.jbool false
    adsense := JValue.jbool false
    ads := JValue.jbool false
    updatedAt := some "t1" }

/-- Claim C1 counterexample: run the enable call of the scenario (its
settings dictionaries carry no enabled key) on an empty store and query the
status: get_status reports the value False for analytics and for ads, not
True as the claim states, because the per-service values are read from the
settings sub-objects, not from membership in enabledServices. -/
theorem C1_counterexample :
    get_status (enable_apis (some []) "GRID" ["analytics", "ads"] gridCfg "t1").1 "GRID"
      = Except.ok c1Status
  ∧ c1Status.analytics ≠ JValue.jbool true
  ∧ c1Status.ads ≠ JValue.jbool true := by
  refine ⟨rfl, by decide, by decide⟩

/-- Helper: the per-service status value of a conditionally attached
settings sub-object. -/
theorem serviceEnabled_ite (b : Bool) (s : Settings) :
    serviceEnabled (if b then some s else none)
      = if b then dictGet s "enabled" (JValue.jbool false) else JValue.jbool false := by
  cases b <;> rfl

/-- Claim C1 (amended): get_status after an enable call reports, for each
known service, the enabled entry of that service settings sub-object of the
stored document — False when the sub-object or the entry is absent — rather
than membership in enabledServices, together with enabledServices as stored,
the productName and the updatedAt of the document. -/
theorem C1_amended_status_from_settings (store : Store) (pc : String)
    (services : List String) (cfg : EnableConfig) (now : String) :
    get_status (enable_apis (some store) pc services cfg now).1 pc
      = Except.ok
          { productCode := pc
            productName := some (cfg.productName.getD pc)
            enabledServices := services
            analytics := if services.contains "analytics" then
                dictGet (cfg.analytics.getD []) "enabled" (JValue.jbool false)
              else JValue.jbool false
            tags := if services.contains "tags" then
                dictGet (cfg.tags.getD []) "enabled" (JValue.jbool false)
              else JValue.jbool false
            adsense := if services.contains "adsense" then
                dictGet (cfg.adsense.getD []) "enabled" (JValue.jbool false)
              else JValue.jbool false
            ads := if services.contains "ads" then
                dictGet (cfg.ads.getD []) "enabled" (JValue.jbool false)
              else JValue.jbool false
            updatedAt := some now } := by
  rw [get_status_after_enable]
  simp only [get_status_found, enable_doc, serviceEnabled_ite]

/-- Claim C2: enable_apis upserts a full replacement document built from the
arguments and the clock alone; a later enable call for the same product
overwrites it completely, so a previously enabled service and its settings
are gone; and two enable calls with identical arguments leave the same
document up to updatedAt. -/
theorem C2_enable_full_replace (store : Store) (pc : String) (services : List String)
    (cfgA cfgB cfg : EnableConfig) (t1 t2 : String) :
    (enable_apis (some store) pc services cfg t1).1
        = some (upsertItem store (enable_doc pc services cfg t1))
  ∧ readItem ((enable_apis (enable_apis (some store) pc ["analytics"] cfgA t1).1
          pc ["tags"] cfgB t2).1.getD [])
        (strLower pc ++ "-google-config") pc
      = some (enable_doc pc ["tags"] cfgB t2)
  ∧ (enable_doc pc ["tags"] cfgB t2).apisEnabled = ["tags"]
  ∧ (enable_doc pc ["tags"] cfgB t2).analytics = none
  ∧ readItem ((enable_apis (enable_apis (some store) pc services cfg t1).1
          pc services cfg t2).1.getD [])
        (strLower pc ++ "-google-config") pc
      = some (enable_doc pc services cfg t2)
  ∧ { enable_doc pc services cfg t1 with updatedAt := t2 } = enable_doc pc services cfg t2 := by
  refine ⟨rfl, ?_, rfl, rfl, ?_, rfl⟩
  · exact readItem_upsert_self _ (enable_doc pc ["tags"] cfgB t2)
  · exact readItem_upsert_self _ (enable_doc pc services cfg t2)

/-- The config argument used by the C3 scenario. -/
def c3Cfg : EnableConfig :=
  { productName := some "Product P"
    analytics := some [("propertyId", JValue.jstr "G-1")]
    tags := none
    adsense := none
    ads := none }

/-- The document the disable call of the C3 scenario writes. -/
def c3WrittenDoc : ProductConfig :=
  { id := "p-google-config"
    productCode := "P"
    productName := "Product P"
    apisEnabled := []
    analytics := some [("propertyId", JValue.jstr "G-1")]
    tags := none
    adsense := none
    ads := none
    updatedAt := "t2" }

/-- Claim C3 counterexample: enable product P with analytics and its
settings, then disable analytics: the document written by the disable call
still carries the analytics settings sub-object while its enabledServices
list is empty, so the settings keys of a disable-written document are not a
subset of its enabledServices at write time. -/
theorem C3_counterexample :
    readItem ((disable_apis (enable_apis (some []) "P" ["analytics"] c3Cfg "t1").1
          "P" ["analytics"] "t2").1.getD [])
        "p-google-config" "P"
      = some c3WrittenDoc
  ∧ "analytics" ∈ settingsKeys c3WrittenDoc
  ∧ "analytics" ∉ c3WrittenDoc.apisEnabled := by
  refine ⟨rfl, by decide, by decide⟩

/-- Claim C3 (amended): documents written by enable_apis do satisfy the
invariant — a known service name carries a settings sub-object exactly when
it appears in the services argument, so the settings keys of the written
document are a subset of its enabledServices; documents written by
disable_apis keep the settings sub-objects of removed services, violating
the invariant as the counterexample shows. -/
theorem C3_amended_enable_write_subset (pc : String) (services : List String)
    (cfg : EnableConfig) (now : String) :
    ((enable_doc pc services cfg now).analytics.isSome = services.contains "analytics")
  ∧ ((enable_doc pc services cfg now).tags.isSome = services.contains "tags")
  ∧ ((enable_doc pc services cfg now).adsense.isSome = services.contains "adsense")
  ∧ ((enable_doc pc services cfg now).ads.isSome = services.contains "ads")
  ∧ settingsKeys (enable_doc pc services cfg now) ⊆ (enable_doc pc services cfg now).apisEnabled := by
  have h1 : (enable_doc pc services cfg now).analytics.isSome = services.contains "analytics" := by
    cases h : services.contains "analytics" <;> simp [enable_doc, h] <;> simpa using h
  have h2 : (enable_doc pc services cfg now).tags.isSome = services.contains "tags" := by
    cases h : services.contains "tags" <;> simp [enable_doc, h] <;> simpa using h
  have h3 : (enable_doc pc services cfg now).adsense.isSome = services.contains "adsense" := by
    cases h : services.contains "adsense" <;> simp [enable_doc, h] <;> simpa using h
  have h4 : (enable_doc pc services cfg now).ads.isSome = services.contains "ads" := by
    cases h : services.contains "ads" <;> simp [enable_doc, h] <;> simpa using h
  refine ⟨h1, h2, h3, h4, ?_⟩
  intro x hx
  show x ∈ services
  simp only [settingsKeys, List.mem_append] at hx
  rw [h1, h2, h3, h4] at hx
  rcases hx with ((hx | hx) | hx) | hx
  · cases hc : services.contains "analytics" with
    | true => rw [hc] at hx; simp at hx; subst hx; simpa using hc
    | false => rw [hc] at hx; simp at hx
  · cases hc : services.contains "tags" with
    | true => rw [hc] at hx; simp at hx; subst hx; simpa using hc
    | false => rw [hc] at hx; simp at hx
  · cases hc : services.contains "adsense" with
    | true => rw [hc] at hx; simp at hx; subst hx; simpa using hc
    | false => rw [hc] at hx; simp at hx
  · cases hc : services.contains "ads" with
    | true => rw [hc] at hx; simp at hx; subst hx; simpa using hc
    | false => rw [hc] at hx; simp at hx

/-- Claim C4 counterexample: an enable call whose services list holds the
name bogus, which is outside the fixed vocabulary, does not fail: it
succeeds and the stored document carries bogus in its enabledServices. -/
theorem C4_counterexample :
    (enable_apis (some []) "P" ["bogus"] emptyCfg "t1").2
      = Except.ok { success := true, productCode := "P",
                    enabledServices := ["bogus"], configId := "p-google-config" }
  ∧ readItem ((enable_apis (some []) "P" ["bogus"] emptyCfg "t1").1.getD [])
        "p-google-config" "P"
      = some (enable_doc "P" ["bogus"] emptyCfg "t1")
  ∧ (enable_doc "P" ["bogus"] emptyCfg "t1").apisEnabled = ["bogus"]
  ∧ "bogus" ∉ knownServices := by
  refine ⟨rfl, rfl, rfl, by decide⟩

/-- Claim C4 (amended): enable_apis performs no validation of service names:
for every services list, with known names or not, the call succeeds and the
stored document carries enabledServices exactly as passed. -/
theorem C4_amended_no_validation (store : Store) (pc : String) (services : List String)
    (cfg : EnableConfig) (now : String) :
    (enable_apis (some store) pc services cfg now).2
      = Except.ok { success := true, productCode := pc, enabledServices := services,
                    configId := strLower pc ++ "-google-config" }
  ∧ readItem ((enable_apis (some store) pc services cfg now).1.getD [])
        (strLower pc ++ "-google-config") pc = some (enable_doc pc services cfg now)
  ∧ (enable_doc pc services cfg now).apisEnabled = services := by
  refine ⟨rfl, ?_, rfl⟩
  exact readItem_upsert_self store (enable_doc pc services cfg now)

/-- Claim C5: any failure of the document read inside get_status — the
not-found case of a never-configured product included — yields the default
status (empty enabledServices, all four service values False, no
productName, no updatedAt) rather than an error; in the store model the read
fails exactly when no document with the derived key exists. -/
theorem C5_read_failure_default (pc : String) (msg : String) (store : Store) :
    get_status_inner pc (ReadOutcome.failure msg) = default_status pc
  ∧ (readItem store (strLower pc ++ "-google-config") pc = none →
      get_status (some store) pc = Except.ok (default_status pc)) := by
  refine ⟨rfl, fun h => ?_⟩
  simp only [get_status, h]
  rfl

/-- Claim C5 witness: a never-configured product code on an empty store. -/
theorem C5_witness :
    get_status_inner "NEWPRODUCT" (ReadOutcome.failure "boom") = default_status "NEWPRODUCT"
  ∧ get_status (some []) "NEWPRODUCT" = Except.ok (default_status "NEWPRODUCT") :=
  ⟨(C5_read_failure_default "NEWPRODUCT" "boom" []).1,
   (C5_read_failure_default "NEWPRODUCT" "boom" []).2 rfl⟩

/-- Claim C6: disable_apis on a product with no stored document fails and
leaves the container content unchanged — no document is created. -/
theorem C6_disable_missing_fails (pc : String) (services : List String) (now : String)
    (store : Store)
    (h : readItem store (strLower pc ++ "-google-config") pc = none) :
    disable_apis (some store) pc services now
      = (some store, Except.error "read failed: document not found") := by
  simp only [disable_apis, h]

/-- Claim C6 witness: disabling analytics on a never-configured product. -/
theorem C6_witness :
    disable_apis (some []) "NEWPRODUCT" ["analytics"] "t1"
      = (some [], Except.error "read failed: document not found") :=
  C6_disable_missing_fails "NEWPRODUCT" ["analytics"] "t1" [] rfl

/-- Claim C7: with the container never initialized, each of the three
manager operations fails at once with the fixed not-initialized condition;
in particular get_status raises (the container check sits outside its inner
try) instead of returning the default all-disabled status. -/
theorem C7_uninitialized (pc : String) (services : List String) (cfg : EnableConfig)
    (now : String) :
    enable_apis none pc services cfg now = (none, Except.error "Cosmos DB not initialized")
  ∧ disable_apis none pc services now = (none, Except.error "Cosmos DB not initialized")
  ∧ get_status none pc = Except.error "Cosmos DB not initialized" :=
  ⟨rfl, rfl, rfl⟩

/-- Claim C8: the document key is the pure function lowercased product code
plus the fixed suffix — concretely terp-google-config for TERP under any
input casing — and the three operations derive and use the same key for the
same product code: the enable result and the written document carry it, and
a get_status or disable call right after an enable call for the same code
finds exactly the document the enable call wrote. -/
theorem C8_key_derivation (store : Store) (pc : String) (services : List String)
    (cfg : EnableConfig) (t1 t2 : String) :
    (enable_apis (some store) pc services cfg t1).2
      = Except.ok { success := true, productCode := pc, enabledServices := services,
                    configId := strLower pc ++ "-google-config" }
  ∧ (enable_doc pc services cfg t1).id = strLower pc ++ "-google-config"
  ∧ (enable_doc "TERP" services cfg t1).id = "terp-google-config"
  ∧ (enable_doc "TeRp" services cfg t1).id = "terp-google-config"
  ∧ (enable_doc "terp" services cfg t1).id = "terp-google-config"
  ∧ get_status (enable_apis (some store) pc services cfg t1).1 pc
      = Except.ok (get_status_found pc (enable_doc pc services cfg t1))
  ∧ (disable_apis (enable_apis (some store) pc services cfg t1).1 pc services t2).2
      = Except.ok { success := true, productCode := pc, disabledServices := services,
                    remainingServices := services.filter (fun s => !(services.contains s)) } := by
  refine ⟨rfl, rfl, rfl, rfl, rfl, ?_, ?_⟩
  · exact get_status_after_enable store pc services cfg t1
  · exact disable_after_enable store pc services services cfg t1 t2

/-- Claim C9: on a stored document, disable_apis removes exactly the named
services from the enabled list — membership in the written list holds for
precisely the previously enabled names outside the services argument — and
changes no other field of the document but updatedAt: all four settings
sub-objects, productName, id and productCode are untouched. -/
theorem C9_disable_frame (pc : String) (services : List String) (now : String)
    (store : Store) (config : ProductConfig)
    (h : readItem store (strLower pc ++ "-google-config") pc = some config) :
    ∃ config1,
      (disable_apis (some store) pc services now).1 = some (upsertItem store config1)
    ∧ (∀ x, x ∈ config1.apisEnabled ↔ x ∈ config.apisEnabled ∧ x ∉ services)
    ∧ config1.analytics = config.analytics
    ∧ config1.tags = config.tags
    ∧ config1.adsense = config.adsense
    ∧ config1.ads = config.ads
    ∧ config1.productName = config.productName
    ∧ config1.id = config.id
    ∧ config1.productCode = config.productCode
    ∧ config1.updatedAt = now := by
  refine ⟨{ config with
      apisEnabled := config.apisEnabled.filter (fun s => !(services.contains s)),
      updatedAt := now }, ?_, ?_, rfl, rfl, rfl, rfl, rfl, rfl, rfl, rfl⟩
  · rw [disable_found store pc services now config h]
  · intro x
    simp [List.mem_filter]

/-- Claim C9 witness: a store holding one document with analytics and tags
enabled; disabling analytics keeps exactly tags and the tags settings. -/
theorem C9_witness :
    ∃ config1,
      (disable_apis (some [doc0]) "P" ["analytics"] "t1").1 = some (upsertItem [doc0] config1)
    ∧ (∀ x, x ∈ config1.apisEnabled ↔ x ∈ doc0.apisEnabled ∧ x ∉ ["analytics"])
    ∧ config1.analytics = doc0.analytics
    ∧ config1.tags = doc0.tags
    ∧ config1.adsense = doc0.adsense
    ∧ config1.ads = doc0.ads
    ∧ config1.productName = doc0.productName
    ∧ config1.id = doc0.id
    ∧ config1.productCode = doc0.productCode
    ∧ config1.updatedAt = "t1" :=
  C9_disable_frame "P" ["analytics"] "t1" [doc0] doc0 rfl

/-- Claim C10: whenever the document exists, disable_apis succeeds no matter
whether the named services are currently enabled — absent names are silently
ignored — and the reported remainingServices is the stored enabled list with
every member of services filtered out, surviving entries in their stored
order. -/
theorem C10_disable_ignores_absent (pc : String) (services : List String) (now : String)
    (store : Store) (config : ProductConfig)
    (h : readItem store (strLower pc ++ "-google-config") pc = some config) :
    (disable_apis (some store) pc services now).2
      = Except.ok { success := true, productCode := pc, disabledServices := services,
                    remainingServices :=
                      config.apisEnabled.filter (fun s => !(services.contains s)) } := by
  rw [disable_found store pc services now config h]

/-- Claim C10 witness: disabling adsense, which is not enabled in the stored
document, succeeds and leaves the enabled list untouched. -/
theorem C10_witness :
    (disable_apis (some [doc0]) "P" ["adsense"] "t1").2
      = Except.ok { success := true, productCode := "P", disabledServices := ["adsense"],
                    remainingServices := ["analytics", "tags"] } :=
  C10_disable_ignores_absent "P" ["adsense"] "t1" [doc0] doc0 rfl
